import Mathlib

/-!
Verification of the ukrdc-sqla data model: the coded-value resolution layer,
the cross-version field-aliasing layer, the compatibility verifier of
src/tests/test_v1_compat.py, and the PatientRecord aggregate.

Conventions of the embedding:
* SQLAlchemy entity classes become Lean structures whose fields are the mapped
  columns, with nullable columns embedded as Option values; timestamp-valued
  columns are embedded as opaque strings since no claim inspects their values.
* The shared code catalog (table code_list) is a list of Code rows; the
  relationship primaryjoin expressions become list filters with SQL equality
  semantics (a NULL operand never compares equal, hence the Option-some
  comparisons below).
* A synonym declaration is name delegation: the instance state is a finite map
  from attribute names to values, and reading or writing an alias reads or
  writes the canonical name instead, exactly as the proxy descriptor generated
  by the library delegates by name.
-/

namespace UkrdcSqla

/-! ### Reference code catalog (class Code, src/ukrdc_sqla/ukrdc.py lines 1616-1629) -/

/-- A row of the code_list table: compound primary key (coding_standard, code),
with an optional human-readable description and auxiliary attributes. -/
structure Code where
  coding_standard : String
  code : String
  description : Option String := none
  object_type : Option String := none
  units : Option String := none
deriving Repr, DecidableEq

/-- The compound primary key (coding_standard, code) is unique in the catalog. -/
def catalogKeyUnique (catalog : List Code) : Prop :=
  catalog.Pairwise fun a b => a.coding_standard ≠ b.coding_standard ∨ a.code ≠ b.code

/-! ### Coded-reference resolver call sites -/

/-- The facility table row (class Facility, lines 1654-1675); only the columns
touched by a claim are carried. -/
structure Facility where
  code : String
  pkb_out : Option Bool := none
  pkb_in : Option Bool := none
deriving Repr, DecidableEq

/-- Facility.code_info relationship: rows of the catalog whose coding_standard
is the constant RR1+ and whose code equals the facility code (the primaryjoin
at line 1674). -/
def facility_code_info (catalog : List Code) (f : Facility) : List Code :=
  catalog.filter fun c => c.coding_standard == "RR1+" && f.code == c.code

/-- Facility.description association proxy (line 1668): the description of each
row the code_info relationship resolves to. -/
def facility_description (catalog : List Code) (f : Facility) : List (Option String) :=
  (facility_code_info catalog f).map fun c => c.description

/-- The coded admit/discharge fields of a treatment row (class Treatment,
lines 1476-1571); only the columns touched by a claim are carried. -/
structure TreatmentCoded where
  admitreasoncode : Option String := none
  admitreasoncodestd : Option String := none
  dischargereasoncode : Option String := none
  dischargereasoncodestd : Option String := none
deriving Repr, DecidableEq

/-- Treatment.admit_reason_code_item relationship (lines 1563-1566): catalog
rows matching the (admit_reason_code_std, admit_reason_code) pair of the row;
a NULL column matches nothing, as in SQL. -/
def admit_reason_code_item (catalog : List Code) (t : TreatmentCoded) : List Code :=
  catalog.filter fun c =>
    t.admitreasoncodestd == some c.coding_standard && t.admitreasoncode == some c.code

/-- Treatment.admit_reason_desc association proxy (line 1556). -/
def admit_reason_desc (catalog : List Code) (t : TreatmentCoded) : List (Option String) :=
  (admit_reason_code_item catalog t).map fun c => c.description

/-! ### Field alias layer -/

/-- Attribute state of one entity instance: a finite map from attribute name to
value, newest binding first, as the instance dictionary the column descriptors
read and write. -/
def Store (α : Type) : Type := List (String × α)

/-- Read the newest binding of an attribute name, if any. -/
def Store.read {α : Type} (s : Store α) (n : String) : Option α :=
  match s with
  | [] => none
  | (k, v) :: rest => if k = n then some v else Store.read rest n

/-- Bind an attribute name to a value. -/
def Store.write {α : Type} (s : Store α) (n : String) (v : α) : Store α :=
  (n, v) :: s

/-- Resolve an attribute name through a synonym table: an alias name resolves
to its declared canonical target, any other name to itself. -/
def resolveSyn (syns : List (String × String)) (n : String) : String :=
  match syns with
  | [] => n
  | (a, c) :: rest => if a = n then c else resolveSyn rest n

/-- Attribute read through the alias layer: delegation by resolved name. -/
def getAttr {α : Type} (syns : List (String × String)) (s : Store α) (n : String) : Option α :=
  s.read (resolveSyn syns n)

/-- Attribute write through the alias layer: delegation by resolved name. -/
def setAttr {α : Type} (syns : List (String × String)) (s : Store α) (n : String) (v : α) :
    Store α :=
  s.write (resolveSyn syns n) v

/-- A synonym table is well formed when every alias resolves to its declared
canonical name and every canonical name resolves to itself. -/
def synTableOK (t : List (String × String)) : Bool :=
  t.all fun p => resolveSyn t p.1 == p.2 && resolveSyn t p.2 == p.2

/-- Two strings that differ only in letter case: identical after folding every
character to lower case, yet not byte-for-byte equal. -/
def differsOnlyInCase (s t : String) : Prop :=
  s.data.map Char.toLower = t.data.map Char.toLower ∧ s ≠ t

/-! ### Registry entity graph: LabOrder, ResultItem and the aggregate root -/

/-- A laborder row (class LabOrder, lines 1274-1361): the primary key, the
owning patientrecord foreign key pid, and the result_items collection declared
with cascade all, delete-orphan; the remaining plain scalar columns carry no
behaviour touched by a claim. -/
structure LabOrderRow where
  id : String
  pid : Option String := none
deriving Repr, DecidableEq

/-- A resultitem row (class ResultItem, lines 1364-1417): every column-mapped
field of the class; order_id maps the orderid foreign key to laborder.id, and
there is no pid column — pid exists only as the association proxy modelled by
result_item_pid below. -/
structure ResultItemRow where
  id : String
  order_id : Option String := none
  creation_date : Option String := none
  resulttype : Option String := none
  serviceidcode : Option String := none
  serviceidcodestd : Option String := none
  serviceiddesc : Option String := none
  subid : Option String := none
  resultvalue : Option String := none
  resultvalueunits : Option String := none
  referencerange : Option String := none
  interpretationcodes : Option String := none
  status : Option String := none
  observationtime : Option String := none
  commenttext : Option String := none
  referencecomment : Option String := none
  prepost : Option String := none
  enteredon : Option String := none
  updatedon : Option String := none
  actioncode : Option String := none
  externalid : Option String := none
  update_date : Option String := none
deriving Repr, DecidableEq

/-- Column-mapped attribute names of class ResultItem (lines 1367-1391), in
declaration order. -/
def resultitem_columns : List String := [
  "id", "order_id", "creation_date", "resulttype", "serviceidcode",
  "serviceidcodestd", "serviceiddesc", "subid", "resultvalue",
  "resultvalueunits", "referencerange", "interpretationcodes", "status",
  "observationtime", "commenttext", "referencecomment", "prepost",
  "enteredon", "updatedon", "actioncode", "externalid", "update_date"]

/-- ResultItem.order relationship (lines 1415-1417): the laborder row whose id
equals the orderid foreign key of the item. -/
def result_item_order (laborders : List LabOrderRow) (r : ResultItemRow) :
    Option LabOrderRow :=
  laborders.find? fun o => r.order_id == some o.id

/-- ResultItem.pid association proxy (line 1395): the pid of the order the
item belongs to, derived by following the order relationship. -/
def result_item_pid (laborders : List LabOrderRow) (r : ResultItemRow) :
    Option String :=
  (result_item_order laborders r).bind fun o => o.pid

/-- The tables of the aggregate the claims touch: the patientrecord roots (by
primary key pid) and the laborder and resultitem child tables. -/
structure UKRDCDb where
  patientrecords : List String
  laborders : List LabOrderRow
  resultitems : List ResultItemRow
deriving Repr, DecidableEq

/-- Cascade delete of a patientrecord root, as declared by the relationship
cascades: the root row goes, every laborder owned by the root goes
(PatientRecord.lab_orders, cascade all, delete-orphan, lines 75-77), and every
resultitem of a deleted laborder goes (LabOrder.result_items, cascade all,
delete-orphan, lines 1356-1361). -/
def deletePatientRecord (db : UKRDCDb) (pid : String) : UKRDCDb :=
  let deletedOrders := db.laborders.filter fun o => o.pid == some pid
  { patientrecords := db.patientrecords.filter fun p => p != pid
    laborders := db.laborders.filter fun o => !(o.pid == some pid)
    resultitems := db.resultitems.filter fun r =>
      !(deletedOrders.any fun o => r.order_id == some o.id) }

/-- Deleting a patientrecord as one atomic transaction: either the whole
cascade is applied, or the operation fails and no new state is produced — the
caller keeps the untouched input state. Failure is modelled for a root that is
not present. -/
def tryDeletePatientRecord (db : UKRDCDb) (pid : String) :
    Except String UKRDCDb :=
  if db.patientrecords.contains pid then .ok (deletePatientRecord db pid)
  else .error "patientrecord not found"

/-- A concrete aggregate: root 000000001 owning 3 lab orders and 7 result
items spread over them. -/
def db3x7 : UKRDCDb :=
  { patientrecords := ["000000001"]
    laborders := [{ id := "LO1", pid := some "000000001" },
                  { id := "LO2", pid := some "000000001" },
                  { id := "LO3", pid := some "000000001" }]
    resultitems := [{ id := "RI1", order_id := some "LO1" },
                    { id := "RI2", order_id := some "LO1" },
                    { id := "RI3", order_id := some "LO2" },
                    { id := "RI4", order_id := some "LO2" },
                    { id := "RI5", order_id := some "LO2" },
                    { id := "RI6", order_id := some "LO3" },
                    { id := "RI7", order_id := some "LO3" }] }

/-! ### Patient name property -/

/-- A name row (class Name, lines 930-946): every column-mapped field. -/
structure NameRow where
  id : String
  pid : Option String := none
  creation_date : Option String := none
  idx : Option Int := none
  nameuse : Option String := none
  family : Option String := none
  given : Option String := none
  othergivennames : Option String := none
  suffix : Option String := none
  update_date : Option String := none
deriving Repr, DecidableEq

/-- Patient.name property (lines 246-252): walk self.names or the empty
collection and return the first name whose nameuse is L, else None. -/
def patient_name (names : Option (List NameRow)) : Option NameRow :=
  (names.getD []).find? fun n => n.nameuse == some "L"

/-! ### Declared synonym tables and mapped column lists

The pairs (alias name, canonical target name) as declared by the synonym calls
in the class bodies, and the attribute names mapped to storage columns, both in
declaration order. -/

/-- Synonyms of class Patient (src/ukrdc_sqla/ukrdc.py lines 195-220). -/
def patient_synonyms : List (String × String) := [
  ("id", "pid"),
  ("birth_time", "birthtime"),
  ("death_time", "deathtime"),
  ("country_of_birth", "countryofbirth"),
  ("ethnic_group_code", "ethnicgroupcode"),
  ("ethnic_group_code_std", "ethnicgroupcodestd"),
  ("ethnic_group_description", "ethnicgroupdesc"),
  ("person_to_contact_name", "persontocontactname"),
  ("person_to_contact_number", "persontocontact_contactnumber"),
  ("person_to_contact_relationship", "persontocontact_relationship"),
  ("person_to_contact_number_comments", "persontocontact_numbercomments"),
  ("person_to_contact_number_type", "persontocontact_contactnumbertype"),
  ("occupation_code", "occupationcode"),
  ("occupation_codestd", "occupationcodestd"),
  ("occupation_description", "occupationdesc"),
  ("primary_language", "primarylanguagecode"),
  ("primary_language_codestd", "primarylanguagecodestd"),
  ("primary_language_description", "primarylanguagedesc"),
  ("dead", "death"),
  ("updated_on", "updatedon")]

/-- Column-mapped attribute names of class Patient (lines 164-192). -/
def patient_columns : List String := [
  "pid", "creation_date", "birthtime", "deathtime", "gender", "countryofbirth",
  "ethnicgroupcode", "ethnicgroupcodestd", "ethnicgroupdesc",
  "occupationcode", "occupationcodestd", "occupationdesc",
  "primarylanguagecode", "primarylanguagecodestd", "primarylanguagedesc",
  "death", "persontocontactname", "persontocontact_relationship",
  "persontocontact_contactnumber", "persontocontact_contactnumbertype",
  "persontocontact_contactnumbercomments", "updatedon", "actioncode",
  "externalid", "bloodgroup", "bloodrhesus", "update_date"]

/-- Synonyms of class Treatment (lines 1528-1552). -/
def treatment_synonyms : List (String × String) := [
  ("encounter_number", "encounternumber"),
  ("encounter_type", "encountertype"),
  ("from_time", "fromtime"),
  ("to_time", "totime"),
  ("admitting_clinician_code", "admittingcliniciancode"),
  ("admitting_clinician_code_std", "admittingcliniciancodestd"),
  ("admitting_clinician_desc", "admittingcliniciandesc"),
  ("admission_source_code", "admissionsourcecode"),
  ("admission_source_code_std", "admissionsourcecodestd"),
  ("admission_source_desc", "admissionsourcedesc"),
  ("admit_reason_code", "admitreasoncode"),
  ("admit_reason_code_std", "admitreasoncodestd"),
  ("discharge_reason_code", "dischargereasoncode"),
  ("discharge_reason_code_std", "dischargereasoncodestd"),
  ("discharge_location_code", "dischargelocationcode"),
  ("discharge_location_code_std", "dischargelocationcodestd"),
  ("discharge_location_desc", "dischargelocationdesc"),
  ("health_care_facility_code", "healthcarefacilitycode"),
  ("health_care_facility_code_std", "healthcarefacilitycodestd"),
  ("health_care_facility_desc", "healthcarefacilitydesc"),
  ("entered_at_code", "enteredatcode"),
  ("visit_description", "visitdescription"),
  ("updated_on", "updatedon"),
  ("action_code", "actioncode"),
  ("external_id", "externalid")]

/-- Column-mapped attribute names of class Treatment (lines 1479-1524). -/
def treatment_columns : List String := [
  "id", "pid", "creation_date", "idx", "encounternumber", "encountertype",
  "fromtime", "totime",
  "admittingcliniciancode", "admittingcliniciancodestd", "admittingcliniciandesc",
  "admitreasoncode", "admitreasoncodestd", "admitreasondesc",
  "admissionsourcecode", "admissionsourcecodestd", "admissionsourcedesc",
  "dischargereasoncode", "dischargereasoncodestd", "dischargereasondesc",
  "dischargelocationcode", "dischargelocationcodestd", "dischargelocationdesc",
  "healthcarefacilitycode", "healthcarefacilitycodestd", "healthcarefacilitydesc",
  "enteredatcode", "enteredatcodestd", "enteredatdesc", "visitdescription",
  "updatedon", "actioncode", "externalid",
  "hdp01", "hdp02", "hdp03", "hdp04", "qbl05", "qbl06", "qbl07", "erf61",
  "pat35", "update_date"]

/-- Alias declarations whose canonical target is not a mapped column of the
entity. -/
def invalidAliasDeclarations (syns : List (String × String)) (columns : List String) :
    List (String × String) :=
  syns.filter fun p => !(columns.contains p.2)

/-! ### Compatibility verifier (src/tests/test_v1_compat.py) -/

/-- Rename handling of the test loop (lines 64-65): the historically
misspelled legacy attribute feild_name must resolve as field_name on the
current class; every other legacy name must resolve unchanged. -/
def resolveRename (n : String) : String :=
  if n == "feild_name" then "field_name" else n

/-- The inner assert loop for one entity pair: walk the legacy attribute names
in order and abort with the first (entity, attribute) pair whose resolved name
the current class does not expose, exactly as the first failing assert aborts
the test. -/
def checkKeys (entity : String) (keys currentAttrs : List String) :
    Except (String × String) Unit :=
  match keys with
  | [] => .ok ()
  | k :: rest =>
    if currentAttrs.contains (resolveRename k) then checkKeys entity rest currentAttrs
    else .error (entity, resolveRename k)

/-- The outer loop of test_v1_compat_patientrecord (lines 58-67): check every
entity pair in order, aborting at the first failing assert. -/
def runCompatTest :
    List (String × List String × List String) → Except (String × String) Unit
  | [] => .ok ()
  | (n, v1k, v2k) :: rest =>
    match checkKeys n v1k v2k with
    | .ok _ => runCompatTest rest
    | .error e => .error e

/-- All compatibility gaps of one entity pair: the legacy attribute names
whose resolved counterparts the current class does not expose. -/
def entityGaps (entity : String) (keys currentAttrs : List String) :
    List (String × String) :=
  keys.filterMap fun k =>
    if currentAttrs.contains (resolveRename k) then none
    else some (entity, resolveRename k)

/-- All compatibility gaps over a pair set, entity by entity. -/
def verifierGaps (pairs : List (String × List String × List String)) :
    List (String × String) :=
  pairs.foldr (fun p acc => entityGaps p.1 p.2.1 p.2.2 ++ acc) []

/-- The failures one run of the test reports: the first failing assert, or
nothing when the test passes. -/
def reportedFailures (pairs : List (String × List String × List String)) :
    List (String × String) :=
  match runCompatTest pairs with
  | .ok _ => []
  | .error e => [e]

/-- The 41 entity pairs of the compatibility map COMP (src/tests/test_v1_compat.py lines 9-51), each paired with the public attribute names declared in the legacy class body (the keys of the class dict not starting with an underscore, src/tests/ukrdc_v1.py) and the public attribute names declared on the corresponding current class (src/ukrdc_sqla/ukrdc.py): columns, synonyms, association proxies, relationships and properties, in declaration order. -/
def comp : List (String × List String × List String) := [
  ("PatientRecord",
   [
    "pid", "sendingfacility", "sendingextract", "localpatientid", "ukrdcid", "extract_time",
    "creation_date", "update_date", "repository_creation_date", "repository_update_date", "patient", "lab_orders",
    "result_items", "observations", "social_histories", "family_histories", "allergies", "diagnoses",
    "cause_of_death", "renaldiagnoses", "medications", "dialysis_sessions", "procedures", "documents",
    "encounters", "treatments", "program_memberships", "transplants", "opt_outs", "clinical_relationships",
    "surveys", "pvdata", "pvdelete"],
   [
    "pid", "sendingfacility", "sendingextract", "localpatientid", "repositorycreationdate", "repositoryupdatedate",
    "migrated", "creation_date", "ukrdcid", "channelname", "channelid", "extracttime",
    "startdate", "stopdate", "schemaversion", "update_date", "patient", "lab_orders",
    "result_items", "observations", "social_histories", "family_histories", "allergies", "diagnoses",
    "cause_of_death", "renaldiagnoses", "medications", "dialysis_sessions", "vascular_accesses", "procedures",
    "documents", "encounters", "transplantlists", "treatments", "program_memberships", "transplants",
    "opt_outs", "clinical_relationships", "surveys", "pvdata", "pvdelete", "id",
    "extract_time", "repository_creation_date", "repository_update_date"]),
  ("Patient",
   [
    "pid", "birth_time", "death_time", "gender", "country_of_birth", "ethnic_group_code",
    "ethnic_group_description", "person_to_contact_name", "person_to_contact_number", "person_to_contact_relationship", "person_to_contact_number_comments", "person_to_contact_number_type",
    "occupation_code", "occupation_codestd", "occupation_description", "primary_language", "primary_language_codestd", "primary_language_description",
    "dead", "updated_on", "bloodgroup", "bloodrhesus", "numbers", "names",
    "contact_details", "addresses", "familydoctor", "name", "first_ni_number", "first_hospital_number"],
   [
    "pid", "creation_date", "birthtime", "deathtime", "gender", "countryofbirth",
    "ethnicgroupcode", "ethnicgroupcodestd", "ethnicgroupdesc", "occupationcode", "occupationcodestd", "occupationdesc",
    "primarylanguagecode", "primarylanguagecodestd", "primarylanguagedesc", "death", "persontocontactname", "persontocontact_relationship",
    "persontocontact_contactnumber", "persontocontact_contactnumbertype", "persontocontact_contactnumbercomments", "updatedon", "actioncode", "externalid",
    "bloodgroup", "bloodrhesus", "update_date", "id", "birth_time", "death_time",
    "country_of_birth", "ethnic_group_code", "ethnic_group_code_std", "ethnic_group_description", "person_to_contact_name", "person_to_contact_number",
    "person_to_contact_relationship", "person_to_contact_number_comments", "person_to_contact_number_type", "occupation_code", "occupation_codestd", "occupation_description",
    "primary_language", "primary_language_codestd", "primary_language_description", "dead", "updated_on", "numbers",
    "names", "contact_details", "addresses", "familydoctor", "name", "first_ni_number",
    "first_hospital_number"]),
  ("CauseOfDeath",
   [
    "pid", "diagnosis_type", "diagnosing_clinician_code", "diagnosing_clinician_code_std", "diagnosing_clinician_desc", "diagnosis_code",
    "diagnosis_code_std", "diagnosis_desc", "comments", "entered_on", "updated_on", "action_code",
    "external_id"],
   [
    "pid", "creation_date", "diagnosistype", "diagnosingcliniciancode", "diagnosingcliniciancodestd", "diagnosingcliniciandesc",
    "diagnosiscode", "diagnosiscodestd", "diagnosisdesc", "comments", "enteredon", "updatedon",
    "actioncode", "externalid", "update_date", "id", "diagnosis_type", "diagnosing_clinician_code",
    "diagnosing_clinician_code_std", "diagnosing_clinician_desc", "diagnosis_code", "diagnosis_code_std", "diagnosis_desc", "entered_on",
    "updated_on", "action_code", "external_id"]),
  ("FamilyDoctor",
   [
    "id", "gpname", "gpid", "gppracticeid", "gp_info", "gp_practice_info",
    "addressuse", "fromtime", "totime", "street", "town", "county",
    "postcode", "countrycode", "countrycodestd", "countrydesc", "contactuse", "contactvalue",
    "email", "commenttext"],
   [
    "id", "creation_date", "gpname", "gpid", "gppracticeid", "addressuse",
    "fromtime", "totime", "street", "town", "county", "postcode",
    "countrycode", "countrycodestd", "countrydesc", "contactuse", "contactvalue", "email",
    "commenttext", "update_date", "gp_info", "gp_practice_info"]),
  ("GPInfo",
   [
    "code", "gpname", "street", "postcode", "contactvalue", "type"],
   [
    "code", "creation_date", "name", "address1", "postcode", "phone",
    "type", "update_date", "gpname", "street", "contactvalue"]),
  ("SocialHistory",
   [
    "id", "pid"],
   [
    "id", "pid", "creation_date", "idx", "socialhabitcode", "socialhabitcodestd",
    "socialhabitdesc", "updatedon", "actioncode", "externalid", "update_date"]),
  ("FamilyHistory",
   [
    "id", "pid"],
   [
    "id", "pid", "creation_date", "idx", "familymembercode", "familymembercodestd",
    "familymemberdesc", "diagnosiscode", "diagnosiscodestd", "diagnosisdesc", "notetext", "enteredatcode",
    "enteredatcodestd", "enteredatdesc", "fromtime", "totime", "updatedon", "actioncode",
    "externalid", "update_date"]),
  ("Observation",
   [
    "id", "pid", "idx", "observation_time", "observation_code", "observation_code_std",
    "observation_desc", "observation_value", "observation_units", "comment_text", "clinician_code", "clinician_code_std",
    "clinician_desc", "entered_at", "entered_at_description", "entering_organization_code", "entering_organization_description", "updated_on",
    "action_code", "external_id", "pre_post"],
   [
    "id", "pid", "creation_date", "idx", "observationtime", "observationcode",
    "observationcodestd", "observationdesc", "observationvalue", "observationunits", "prepost", "commenttext",
    "cliniciancode", "cliniciancodestd", "cliniciandesc", "enteredatcode", "enteredatcodestd", "enteredatdesc",
    "enteringorganizationcode", "enteringorganizationcodestd", "enteringorganizationdesc", "updatedon", "actioncode", "externalid",
    "update_date", "observation_time", "observation_code", "observation_code_std", "observation_desc", "observation_value",
    "observation_units", "comment_text", "clinician_code", "clinician_code_std", "clinician_desc", "entered_at",
    "entered_at_description", "entering_organization_code", "entering_organization_description", "updated_on", "action_code", "external_id",
    "pre_post"]),
  ("OptOut",
   [
    "id", "pid", "idx", "program_name", "program_description", "entered_by_code",
    "entered_by_code_std", "entered_by_desc", "entered_at_code", "entered_at_code_std", "entered_at_desc", "from_time",
    "to_time", "updated_on", "action_code", "external_id"],
   [
    "id", "pid", "creation_date", "idx", "programname", "programdescription",
    "enteredbycode", "enteredbycodestd", "enteredbydesc", "enteredatcode", "enteredatcodestd", "enteredatdesc",
    "fromtime", "totime", "updatedon", "actioncode", "externalid", "update_date",
    "program_name", "program_description", "entered_by_code", "entered_by_code_std", "entered_by_desc", "entered_at_code",
    "entered_at_code_std", "entered_at_desc", "from_time", "to_time", "updated_on", "action_code",
    "external_id"]),
  ("Allergy",
   [
    "id", "pid"],
   [
    "id", "pid", "creation_date", "idx", "allergycode", "allergycodestd",
    "allergydesc", "allergycategorycode", "allergycategorycodestd", "allergycategorydesc", "severitycode", "severitycodestd",
    "severitydesc", "cliniciancode", "cliniciancodestd", "cliniciandesc", "discoverytime", "confirmedtime",
    "commenttext", "inactivetime", "freetextallergy", "qualifyingdetails", "updatedon", "actioncode",
    "externalid", "update_date"]),
  ("Diagnosis",
   [
    "id", "pid", "diagnosis_code", "diagnosis_code_std", "diagnosis_desc", "identification_time",
    "onset_time", "comments"],
   [
    "id", "pid", "creation_date", "idx", "diagnosistype", "diagnosingcliniciancode",
    "diagnosingcliniciancodestd", "diagnosingcliniciandesc", "diagnosiscode", "diagnosiscodestd", "diagnosisdesc", "comments",
    "identificationtime", "onsettime", "enteredon", "updatedon", "actioncode", "externalid",
    "update_date", "enteredatcode", "enteredatcodestd", "enteredatdesc", "encounternumber", "verificationstatus",
    "diagnosis_code", "diagnosis_code_std", "diagnosis_desc", "identification_time", "onset_time"]),
  ("RenalDiagnosis",
   [
    "pid", "diagnosis_code", "diagnosis_code_std", "diagnosis_desc", "identification_time", "comments"],
   [
    "pid", "creation_date", "diagnosistype", "diagnosiscode", "diagnosiscodestd", "diagnosisdesc",
    "diagnosingcliniciancode", "diagnosingcliniciancodestd", "diagnosingcliniciandesc", "comments", "identificationtime", "onsettime",
    "enteredon", "updatedon", "actioncode", "externalid", "update_date", "id",
    "diagnosis_code", "diagnosis_code_std", "diagnosis_desc", "identification_time"]),
  ("DialysisSession",
   [
    "id", "pid", "procedure_type_code", "procedure_type_code_std", "procedure_type_desc", "procedure_time",
    "qhd19", "qhd20", "qhd21", "qhd22", "qhd30", "qhd31",
    "qhd32", "qhd33"],
   [
    "id", "pid", "creation_date", "idx", "proceduretypecode", "proceduretypecodestd",
    "proceduretypedesc", "cliniciancode", "cliniciancodestd", "cliniciandesc", "proceduretime", "enteredbycode",
    "enteredbycodestd", "enteredbydesc", "enteredatcode", "enteredatcodestd", "enteredatdesc", "qhd19",
    "qhd20", "qhd21", "qhd22", "qhd30", "qhd31", "qhd32",
    "qhd33", "updatedon", "actioncode", "externalid", "update_date", "procedure_type_code",
    "procedure_type_code_std", "procedure_type_desc", "procedure_time"]),
  ("Transplant",
   [
    "id", "pid", "procedure_type_code", "procedure_type_code_std", "procedure_type_desc", "procedure_time",
    "tra64", "tra65", "tra66", "tra69", "tra76", "tra77",
    "tra78", "tra79", "tra8a", "tra81", "tra82", "tra83",
    "tra84", "tra85"],
   [
    "id", "pid", "creation_date", "idx", "proceduretypecode", "proceduretypecodestd",
    "proceduretypedesc", "cliniciancode", "cliniciancodestd", "cliniciandesc", "proceduretime", "enteredbycode",
    "enteredbycodestd", "enteredbydesc", "enteredatcode", "enteredatcodestd", "enteredatdesc", "updatedon",
    "actioncode", "externalid", "tra64", "tra65", "tra66", "tra69",
    "tra76", "tra77", "tra78", "tra79", "tra80", "tra8a",
    "tra81", "tra82", "tra83", "tra84", "tra85", "tra86",
    "tra87", "tra88", "tra89", "tra90", "tra91", "tra92",
    "tra93", "tra94", "tra95", "tra96", "tra97", "tra98",
    "update_date", "procedure_type_code", "procedure_type_code_std", "procedure_type_desc", "procedure_time"]),
  ("Procedure",
   [
    "id", "pid"],
   [
    "id", "pid", "creation_date", "idx", "proceduretypecode", "proceduretypecodestd",
    "proceduretypedesc", "cliniciancode", "cliniciancodestd", "cliniciandesc", "proceduretime", "enteredbycode",
    "enteredbycodestd", "enteredbydesc", "enteredatcode", "enteredatcodestd", "enteredatdesc", "updatedon",
    "actioncode", "externalid", "update_date"]),
  ("Encounter",
   [
    "id", "pid", "from_time", "to_time"],
   [
    "id", "pid", "creation_date", "idx", "encounternumber", "encountertype",
    "fromtime", "totime", "admittingcliniciancode", "admittingcliniciancodestd", "admittingcliniciandesc", "admitreasoncode",
    "admitreasoncodestd", "admitreasondesc", "admissionsourcecode", "admissionsourcecodestd", "admissionsourcedesc", "dischargereasoncode",
    "dischargereasoncodestd", "dischargereasondesc", "dischargelocationcode", "dischargelocationcodestd", "dischargelocationdesc", "healthcarefacilitycode",
    "healthcarefacilitycodestd", "healthcarefacilitydesc", "enteredatcode", "enteredatcodestd", "enteredatdesc", "visitdescription",
    "updatedon", "actioncode", "externalid", "update_date", "from_time", "to_time"]),
  ("ProgramMembership",
   [
    "id", "pid", "program_name", "from_time", "to_time"],
   [
    "id", "pid", "creation_date", "programname", "programdescription", "enteredbycode",
    "enteredbycodestd", "enteredbydesc", "enteredatcode", "enteredatcodestd", "enteredatdesc", "fromtime",
    "totime", "updatedon", "actioncode", "externalid", "update_date", "program_name",
    "from_time", "to_time"]),
  ("ClinicalRelationship",
   [
    "id", "pid"],
   [
    "id", "pid", "creation_date", "idx", "cliniciancode", "cliniciancodestd",
    "cliniciandesc", "facilitycode", "facilitycodestd", "facilitydesc", "fromtime", "totime",
    "updatedon", "actioncode", "externalid", "update_date"]),
  ("Name",
   [
    "id", "pid", "nameuse", "prefix", "family", "given",
    "othergivennames", "suffix"],
   [
    "id", "pid", "creation_date", "idx", "nameuse", "prefix",
    "family", "given", "othergivennames", "suffix", "update_date"]),
  ("PatientNumber",
   [
    "id", "pid", "patientid", "organization", "numbertype"],
   [
    "id", "pid", "creation_date", "idx", "patientid", "numbertype",
    "organization", "updatedon", "actioncode", "externalid", "update_date"]),
  ("Address",
   [
    "id", "pid", "addressuse", "from_time", "to_time", "street",
    "town", "county", "postcode", "country_code", "country_code_std", "country_description"],
   [
    "id", "pid", "creation_date", "idx", "addressuse", "fromtime",
    "totime", "street", "town", "county", "postcode", "countrycode",
    "countrycodestd", "countrydesc", "update_date", "from_time", "to_time", "country_code",
    "country_code_std", "country_description"]),
  ("ContactDetail",
   [
    "id", "pid", "use", "value", "commenttext"],
   [
    "id", "pid", "creation_date", "idx", "contactuse", "contactvalue",
    "commenttext", "updatedon", "actioncode", "externalid", "update_date", "use",
    "value"]),
  ("Medication",
   [
    "id", "pid", "idx", "from_time", "to_time", "dose_uom_code",
    "dose_uom_code_std", "dose_uom_description", "dose_quantity", "drug_product_id_code", "drug_product_id_description", "drug_product_generic",
    "entering_organization_code", "entering_organization_description", "frequency", "comment", "route_code", "route_code_std",
    "route_desc", "external_id", "updated_on", "repository_update_date"],
   [
    "id", "pid", "creation_date", "idx", "repositoryupdatedate", "prescriptionnumber",
    "fromtime", "totime", "orderedbycode", "orderedbycodestd", "orderedbydesc", "enteringorganizationcode",
    "enteringorganizationcodestd", "enteringorganizationdesc", "routecode", "routecodestd", "routedesc", "drugproductidcode",
    "drugproductidcodestd", "drugproductiddesc", "drugproductgeneric", "drugproductlabelname", "drugproductformcode", "drugproductformcodestd",
    "drugproductformdesc", "drugproductstrengthunitscode", "drugproductstrengthunitscodestd", "drugproductstrengthunitsdesc", "frequency", "commenttext",
    "dosequantity", "doseuomcode", "doseuomcodestd", "doseuomdesc", "indication", "updatedon",
    "actioncode", "externalid", "update_date", "encounternumber", "repository_update_date", "from_time",
    "to_time", "entering_organization_code", "entering_organization_description", "route_code", "route_code_std", "route_desc",
    "drug_product_id_code", "drug_product_id_description", "drug_product_generic", "comment", "dose_quantity", "dose_uom_code",
    "dose_uom_code_std", "dose_uom_description", "updated_on", "external_id"]),
  ("Survey",
   [
    "id", "pid", "surveytime", "surveytypecode", "surveytypecodestd", "surveytypedesc",
    "enteredbycode", "enteredbycodestd", "enteredatcode", "enteredatcodestd", "enteredatdesc", "updatedon",
    "externalid", "questions", "scores", "levels"],
   [
    "id", "pid", "creation_date", "surveytime", "surveytypecode", "surveytypecodestd",
    "surveytypedesc", "typeoftreatment", "hdlocation", "template", "enteredbycode", "enteredbycodestd",
    "enteredbydesc", "enteredatcode", "enteredatcodestd", "enteredatdesc", "updatedon", "actioncode",
    "externalid", "update_date", "questions", "scores", "levels"]),
  ("Question",
   [
    "id", "surveyid", "questiontypecode", "questiontypecodestd", "questiontypedesc", "response"],
   [
    "id", "surveyid", "creation_date", "idx", "questiontypecode", "questiontypecodestd",
    "questiontypedesc", "response", "questiontext", "update_date"]),
  ("Score",
   [
    "id", "surveyid", "value", "scoretypecode", "scoretypecodestd", "scoretypedesc"],
   [
    "id", "surveyid", "creation_date", "idx", "scorevalue", "scoretypecode",
    "scoretypecodestd", "scoretypedesc", "update_date", "value"]),
  ("Level",
   [
    "id", "surveyid", "value", "leveltypecode", "leveltypecodestd", "leveltypedesc"],
   [
    "id", "surveyid", "creation_date", "idx", "levelvalue", "leveltypecode",
    "leveltypecodestd", "leveltypedesc", "update_date", "value"]),
  ("Document",
   [
    "id", "pid", "idx", "documenttime", "notetext", "documenttypecode",
    "documenttypecodestd", "documenttypedesc", "cliniciancode", "cliniciancodestd", "cliniciandesc", "documentname",
    "statuscode", "statuscodestd", "statusdesc", "enteredbycode", "enteredbycodestd", "enteredbydesc",
    "enteredatcode", "enteredatcodestd", "enteredatdesc", "filetype", "filename", "stream",
    "documenturl", "updatedon", "actioncode", "externalid", "update_date", "creation_date",
    "repository_update_date"],
   [
    "id", "pid", "repositoryupdatedate", "creation_date", "idx", "documenttime",
    "notetext", "documenttypecode", "documenttypecodestd", "documenttypedesc", "cliniciancode", "cliniciancodestd",
    "cliniciandesc", "documentname", "statuscode", "statuscodestd", "statusdesc", "enteredbycode",
    "enteredbycodestd", "enteredbydesc", "enteredatcode", "enteredatcodestd", "enteredatdesc", "filetype",
    "filename", "stream", "documenturl", "updatedon", "actioncode", "externalid",
    "update_date", "repository_update_date"]),
  ("LabOrder",
   [
    "id", "pid", "receiving_location", "receiving_location_description", "placer_id", "filler_id",
    "ordered_by", "ordered_by_description", "order_item", "order_item_description", "order_category", "order_category_description",
    "specimen_collected_time", "specimen_received_time", "status", "priority", "priority_description", "specimen_source",
    "duration", "patient_class", "patient_class_description", "entered_on", "entered_at", "entered_at_description",
    "external_id", "entering_organization_code", "entering_organization_description", "result_items"],
   [
    "id", "pid", "creation_date", "placerid", "fillerid", "receivinglocationcode",
    "receivinglocationcodestd", "receivinglocationdesc", "orderedbycode", "orderedbycodestd", "orderedbydesc", "orderitemcode",
    "orderitemcodestd", "orderitemdesc", "prioritycode", "prioritycodestd", "prioritydesc", "status",
    "ordercategorycode", "ordercategorycodestd", "ordercategorydesc", "specimensource", "specimenreceivedtime", "specimencollectedtime",
    "duration", "patientclasscode", "patientclasscodestd", "patientclassdesc", "enteredon", "enteredatcode",
    "enteredatcodestd", "enteredatdesc", "enteringorganizationcode", "enteringorganizationcodestd", "enteringorganizationdesc", "updatedon",
    "actioncode", "externalid", "update_date", "repository_update_date", "receiving_location", "receiving_location_description",
    "receiving_location_code_std", "placer_id", "filler_id", "ordered_by", "ordered_by_description", "ordered_by_code_std",
    "order_item", "order_item_description", "order_item_code_std", "order_category", "order_category_description", "order_category_code_std",
    "specimen_collected_time", "specimen_received_time", "priority", "priority_description", "priority_code_std", "specimen_source",
    "patient_class", "patient_class_description", "patient_class_code_std", "entered_on", "entered_at", "entered_at_description",
    "external_id", "entering_organization_code", "entering_organization_description", "entering_organization_code_std", "result_items"]),
  ("ResultItem",
   [
    "id", "order_id", "result_type", "entered_on", "pre_post", "service_id",
    "service_id_std", "service_id_description", "sub_id", "value", "value_units", "reference_range",
    "interpretation_codes", "status", "observation_time", "comments", "reference_comment", "order",
    "pid"],
   [
    "id", "order_id", "creation_date", "resulttype", "serviceidcode", "serviceidcodestd",
    "serviceiddesc", "subid", "resultvalue", "resultvalueunits", "referencerange", "interpretationcodes",
    "status", "observationtime", "commenttext", "referencecomment", "prepost", "enteredon",
    "updatedon", "actioncode", "externalid", "update_date", "pid", "result_type",
    "entered_on", "pre_post", "service_id", "service_id_std", "service_id_description", "sub_id",
    "value", "value_units", "reference_range", "interpretation_codes", "observation_time", "comments",
    "reference_comment", "order"]),
  ("PVData",
   [
    "id", "rrtstatus", "tpstatus", "diagnosisdate", "bloodgroup", "update_date",
    "creation_date"],
   [
    "id", "creation_date", "update_date", "diagnosisdate", "bloodgroup", "rrtstatus",
    "tpstatus", "rrtstatus_desc", "tpstatus_desc", "rrtstatus_info", "tpstatus_info"]),
  ("PVDelete",
   [
    "did", "pid", "observation_time", "service_id"],
   [
    "did", "pid", "creation_date", "observationtime", "serviceidcode", "update_date",
    "observation_time", "service_id"]),
  ("Treatment",
   [
    "id", "pid", "idx", "encounter_number", "encounter_type", "from_time",
    "to_time", "admitting_clinician_code", "admitting_clinician_code_std", "admitting_clinician_desc", "admission_source_code", "admission_source_code_std",
    "admission_source_desc", "admit_reason_code", "admit_reason_code_std", "admit_reason_code_item", "admit_reason_desc", "discharge_reason_code",
    "discharge_reason_code_std", "discharge_reason_code_item", "discharge_reason_desc", "discharge_location_code", "discharge_location_code_std", "discharge_location_desc",
    "health_care_facility_code", "health_care_facility_code_std", "health_care_facility_desc", "entered_at_code", "visit_description", "updated_on",
    "action_code", "external_id", "hdp01", "hdp02", "hdp03", "hdp04",
    "qbl05", "qbl06", "qbl07", "erf61", "pat35"],
   [
    "id", "pid", "creation_date", "idx", "encounternumber", "encountertype",
    "fromtime", "totime", "admittingcliniciancode", "admittingcliniciancodestd", "admittingcliniciandesc", "admitreasoncode",
    "admitreasoncodestd", "admitreasondesc", "admissionsourcecode", "admissionsourcecodestd", "admissionsourcedesc", "dischargereasoncode",
    "dischargereasoncodestd", "dischargereasondesc", "dischargelocationcode", "dischargelocationcodestd", "dischargelocationdesc", "healthcarefacilitycode",
    "healthcarefacilitycodestd", "healthcarefacilitydesc", "enteredatcode", "enteredatcodestd", "enteredatdesc", "visitdescription",
    "updatedon", "actioncode", "externalid", "hdp01", "hdp02", "hdp03",
    "hdp04", "qbl05", "qbl06", "qbl07", "erf61", "pat35",
    "update_date", "encounter_number", "encounter_type", "from_time", "to_time", "admitting_clinician_code",
    "admitting_clinician_code_std", "admitting_clinician_desc", "admission_source_code", "admission_source_code_std", "admission_source_desc", "admit_reason_code",
    "admit_reason_code_std", "discharge_reason_code", "discharge_reason_code_std", "discharge_location_code", "discharge_location_code_std", "discharge_location_desc",
    "health_care_facility_code", "health_care_facility_code_std", "health_care_facility_desc", "entered_at_code", "visit_description", "updated_on",
    "action_code", "external_id", "admit_reason_desc", "discharge_reason_desc", "admit_reason_code_item", "discharge_reason_code_item"]),
  ("Code",
   [
    "coding_standard", "code", "description", "object_type", "creation_date", "update_date",
    "units"],
   [
    "coding_standard", "code", "creation_date", "description", "object_type", "update_date",
    "units", "pkb_reference_range", "pkb_comment"]),
  ("CodeExclusion",
   [
    "coding_standard", "code", "system"],
   [
    "coding_standard", "code", "system"]),
  ("CodeMap",
   [
    "source_coding_standard", "source_code", "destination_coding_standard", "destination_code", "creation_date", "update_date"],
   [
    "source_coding_standard", "source_code", "destination_coding_standard", "destination_code", "creation_date", "update_date"]),
  ("Facility",
   [
    "code", "pkb_out", "pkb_in", "pkb_msg_exclusions", "code_info", "description"],
   [
    "code", "creation_date", "pkb_out", "pkb_in", "pkb_msg_exclusions", "update_date",
    "description", "code_info"]),
  ("RRCodes",
   [
    "id", "rr_code", "description_1", "description_2", "description_3", "old_value",
    "old_value_2", "new_value"],
   [
    "id", "rr_code", "description_1", "description_2", "description_3", "old_value",
    "old_value_2", "new_value"]),
  ("Locations",
   [
    "centre_code", "centre_name", "country_code", "region_code", "paed_unit"],
   [
    "centre_code", "centre_name", "country_code", "region_code", "paed_unit"]),
  ("RRDataDefinition",
   [
    "upload_key", "table_name", "feild_name", "code_id", "mandatory", "code_type",
    "alt_constraint", "alt_desc", "extra_val", "error_type", "paed_mand", "ckd5_mand_numeric",
    "dependant_field", "alt_validation", "file_prefix", "load_min", "load_max", "remove_min",
    "remove_max", "in_month", "aki_mand", "rrt_mand", "cons_mand", "ckd4_mand",
    "valid_before_dob", "valid_after_dod", "in_quarter"],
   [
    "upload_key", "table_name", "feild_name", "code_id", "mandatory", "type",
    "alt_constraint", "alt_desc", "extra_val", "error_type", "paed_mand", "ckd5_mand_numeric",
    "dependant_field", "alt_validation", "file_prefix", "load_min", "load_max", "remove_min",
    "remove_max", "in_month", "aki_mand", "rrt_mand", "cons_mand", "ckd4_mand",
    "valid_before_dob", "valid_after_dod", "in_quarter", "code_type"]),
  ("ModalityCodes",
   [
    "registry_code", "registry_code_desc", "registry_code_type", "acute", "transfer_in", "ckd",
    "cons", "rrt", "equiv_modality", "end_of_care", "is_imprecise", "nhsbt_transplant_type",
    "transfer_out"],
   [
    "registry_code", "registry_code_desc", "registry_code_type", "acute", "transfer_in", "ckd",
    "cons", "rrt", "equiv_modality", "end_of_care", "is_imprecise", "nhsbt_transplant_type",
    "transfer_out"])
]

/-- Attribute surface of a current entity of the comp table. -/
def currentAttrsOf (entity : String) : List String :=
  ((comp.find? fun p => p.1 == entity).map fun p => p.2.2).getD []

/-- A two-entity pair set carrying two distinct compatibility gaps. -/
def twoGapInput : List (String × List String × List String) :=
  [("EntityA", ["x"], []), ("EntityB", ["y"], [])]

/-! ### Theorems -/

/-! ### Helper lemmas -/

theorem Store.read_write_self {α : Type} (s : Store α) (n : String) (v : α) :
    (s.write n v).read n = some v := by
  simp [Store.write, Store.read]

theorem synTableOK_spec {t : List (String × String)} (h : synTableOK t = true)
    {a c : String} (hm : (a, c) ∈ t) : resolveSyn t a = c ∧ resolveSyn t c = c := by
  have h1 := List.all_eq_true.mp h (a, c) hm
  simp only [Bool.and_eq_true, beq_iff_eq] at h1
  exact h1

/-- Filtering a key-unique catalog by the key of one of its rows yields exactly
that row. -/
theorem filter_key_unique {catalog : List Code} {row : Code}
    (hu : catalogKeyUnique catalog) (hm : row ∈ catalog)
    {p : Code → Bool}
    (hp : ∀ c, p c = true ↔ (c.coding_standard = row.coding_standard ∧ c.code = row.code)) :
    catalog.filter p = [row] := by
  induction catalog with
  | nil => cases hm
  | cons head tail ih =>
    rw [catalogKeyUnique, List.pairwise_cons] at hu
    rcases List.mem_cons.mp hm with hrow | hrow
    · subst hrow
      have hhead : p row = true := (hp row).mpr ⟨rfl, rfl⟩
      rw [List.filter_cons_of_pos hhead]
      have htail : tail.filter p = [] := by
        rw [List.filter_eq_nil_iff]
        intro a ha hpa
        obtain ⟨h1, h2⟩ := (hp a).mp hpa
        rcases hu.1 a ha with hne | hne
        · exact hne h1.symm
        · exact hne h2.symm
      rw [htail]
    · have hhead : ¬ p head = true := by
        intro hpa
        obtain ⟨h1, h2⟩ := (hp head).mp hpa
        rcases hu.1 row hrow with hne | hne
        · exact hne h1
        · exact hne h2
      rw [List.filter_cons_of_neg (by simpa using hhead)]
      exact ih hu.2 hrow

/-- C3: resolving a coded reference returns the description of the unique
catalog row matching the (coding_standard, code) key, the empty result when no
row matches, the empty result when the code column is null, and concretely the
HOSP01 facility resolves to Example Hospital while UNKNOWN99 resolves to
nothing, with every resolver a total function (no exception). -/
theorem C3_coded_reference_resolution :
    (∀ (catalog : List Code) (f : Facility) (row : Code),
       catalogKeyUnique catalog → row ∈ catalog →
       row.coding_standard = "RR1+" → row.code = f.code →
       facility_description catalog f = [row.description]) ∧
    (∀ (catalog : List Code) (f : Facility),
       (∀ c ∈ catalog, ¬(c.coding_standard = "RR1+" ∧ c.code = f.code)) →
       facility_description catalog f = []) ∧
    (∀ (catalog : List Code) (t : TreatmentCoded),
       t.admitreasoncode = none → admit_reason_desc catalog t = []) ∧
    (facility_description [⟨"RR1+", "HOSP01", some "Example Hospital", none, none⟩]
        ⟨"HOSP01", none, none⟩ = [some "Example Hospital"] ∧
      facility_description [⟨"RR1+", "HOSP01", some "Example Hospital", none, none⟩]
        ⟨"UNKNOWN99", none, none⟩ = []) := by
  refine ⟨?_, ?_, ?_, rfl, rfl⟩
  · intro catalog f row hu hm hstd hcode
    have hfilter : facility_code_info catalog f = [row] := by
      apply filter_key_unique hu hm
      intro c
      constructor
      · intro h
        rw [Bool.and_eq_true, beq_iff_eq, beq_iff_eq] at h
        exact ⟨by rw [h.1, hstd], h.2.symm.trans hcode.symm⟩
      · intro h
        rw [Bool.and_eq_true, beq_iff_eq, beq_iff_eq]
        exact ⟨by rw [h.1, hstd], (h.2.trans hcode).symm⟩
    rw [facility_description, hfilter, List.map_singleton]
  · intro catalog f h
    have hfilter : facility_code_info catalog f = [] := by
      rw [facility_code_info, List.filter_eq_nil_iff]
      intro c hc hpc
      rw [Bool.and_eq_true, beq_iff_eq, beq_iff_eq] at hpc
      exact h c hc ⟨hpc.1, hpc.2.symm⟩
    rw [facility_description, hfilter, List.map_nil]
  · intro catalog t h
    rw [admit_reason_desc, admit_reason_code_item]
    simp [h]

/-- C3 witness: the first conjunct applied to the one-row catalog of the
scenario. -/
theorem C3_coded_reference_resolution_witness :
    catalogKeyUnique [⟨"RR1+", "HOSP01", some "Example Hospital", none, none⟩] ∧
    facility_description [⟨"RR1+", "HOSP01", some "Example Hospital", none, none⟩]
      ⟨"HOSP01", none, none⟩ = [some "Example Hospital"] :=
  ⟨by constructor <;> simp,
    C3_coded_reference_resolution.1 _ ⟨"HOSP01", none, none⟩ _
      (by constructor <;> simp) (List.mem_singleton.mpr rfl) rfl rfl⟩

/-- C9: coded-reference resolution compares coding-standard strings
byte-for-byte: supplying a standard that differs from a catalogued one only in
letter case never matches a row stored under the other casing; if nothing in
the catalog carries the supplied casing the resolution silently yields no
description; and concretely a catalog row under rr1+ is invisible to the
facility resolver, which fixes the standard RR1+. -/
theorem C9_case_sensitive_resolution :
    (∀ (catalog : List Code) (t : TreatmentCoded) (s s2 : String),
       differsOnlyInCase s s2 → t.admitreasoncodestd = some s2 →
       ∀ row ∈ admit_reason_code_item catalog t, row.coding_standard ≠ s) ∧
    (∀ (catalog : List Code) (t : TreatmentCoded) (s s2 : String),
       differsOnlyInCase s s2 → t.admitreasoncodestd = some s2 →
       (∀ c ∈ catalog, c.coding_standard ≠ s2) →
       admit_reason_desc catalog t = []) ∧
    facility_description [⟨"rr1+", "HOSP01", some "Example Hospital", none, none⟩]
      ⟨"HOSP01", none, none⟩ = [] := by
  refine ⟨?_, ?_, rfl⟩
  · intro catalog t s s2 hcase hstd row hrow
    have hpred := List.of_mem_filter hrow
    rw [Bool.and_eq_true, beq_iff_eq, beq_iff_eq] at hpred
    have : some s2 = some row.coding_standard := hstd ▸ hpred.1
    have hrs : row.coding_standard = s2 := (Option.some.injEq .. ▸ this).symm
    rw [hrs]
    exact fun h => hcase.2 h.symm
  · intro catalog t s s2 hcase hstd hnone
    have hfilter : admit_reason_code_item catalog t = [] := by
      rw [admit_reason_code_item, List.filter_eq_nil_iff]
      intro c hc hpc
      rw [Bool.and_eq_true, beq_iff_eq, beq_iff_eq] at hpc
      have : some s2 = some c.coding_standard := hstd ▸ hpc.1
      exact hnone c hc (Option.some_injective _ this).symm
    rw [admit_reason_desc, hfilter, List.map_nil]

/-- C9 witness: the second conjunct applied to a one-row catalog under RR1+
queried with the standard rr1+. -/
theorem C9_case_sensitive_resolution_witness :
    differsOnlyInCase "RR1+" "rr1+" ∧
    admit_reason_desc [⟨"RR1+", "HOSP01", some "Example Hospital", none, none⟩]
      ⟨some "HOSP01", some "rr1+", none, none⟩ = [] :=
  ⟨⟨by decide, by decide⟩,
    C9_case_sensitive_resolution.2.1 _ _ "RR1+" "rr1+" ⟨by decide, by decide⟩ rfl
      (by intro c hc; simp only [List.mem_singleton] at hc; subst hc; decide)⟩

/-- C6: deleting a patientrecord is all-or-nothing over its aggregate. On the
concrete root owning 3 lab orders and 7 result items the delete succeeds and
leaves 0 rows in both child tables and no root. In general a successful delete
leaves no owned laborder, no resultitem referencing an owned laborder, and no
root row; and the operation either returns such a fully-cascaded state or
fails outright, in which case no new state exists and the caller keeps the
input state with the root and every child row intact. -/
theorem C6_cascade_delete_atomicity :
    (tryDeletePatientRecord db3x7 "000000001" =
      .ok { patientrecords := [], laborders := [], resultitems := [] }) ∧
    (∀ (db : UKRDCDb) (pid : String) (db2 : UKRDCDb),
       tryDeletePatientRecord db pid = .ok db2 →
       (∀ o ∈ db2.laborders, o.pid ≠ some pid) ∧
       (∀ r ∈ db2.resultitems, ∀ o ∈ db.laborders,
          o.pid = some pid → r.order_id ≠ some o.id) ∧
       pid ∉ db2.patientrecords) ∧
    (∀ (db : UKRDCDb) (pid : String),
       (∃ db2, tryDeletePatientRecord db pid = .ok db2) ∨
       (tryDeletePatientRecord db pid = .error "patientrecord not found" ∧
         pid ∉ db.patientrecords)) := by
  refine ⟨rfl, ?_, ?_⟩
  · intro db pid db2 hok
    rw [tryDeletePatientRecord] at hok
    by_cases hmem : db.patientrecords.contains pid
    · rw [if_pos hmem] at hok
      cases hok
      refine ⟨?_, ?_, ?_⟩
      · intro o ho hpid
        have := List.of_mem_filter ho
        rw [hpid] at this
        simp at this
      · intro r hr o ho hopid hoid
        have hpred := List.of_mem_filter hr
        rw [Bool.not_eq_eq_eq_not, Bool.not_true, List.any_eq_false] at hpred
        have hdel : o ∈ db.laborders.filter fun o => o.pid == some pid :=
          List.mem_filter.mpr ⟨ho, by rw [hopid]; simp⟩
        have := hpred o hdel
        rw [hoid] at this
        simp at this
      · intro hmem2
        have := List.of_mem_filter hmem2
        simp at this
    · rw [if_neg hmem] at hok
      cases hok
  · intro db pid
    by_cases hmem : db.patientrecords.contains pid
    · exact Or.inl ⟨_, by rw [tryDeletePatientRecord, if_pos hmem]⟩
    · refine Or.inr ⟨by rw [tryDeletePatientRecord, if_neg hmem], ?_⟩
      intro h
      exact hmem (List.elem_iff.mpr h)

/-- C6 witness: the second conjunct applied to the concrete 3-order,
7-item aggregate. -/
theorem C6_cascade_delete_atomicity_witness :
    tryDeletePatientRecord db3x7 "000000001" =
      .ok { patientrecords := [], laborders := [], resultitems := [] } ∧
    "000000001" ∉
      ({ patientrecords := [], laborders := [], resultitems := [] } :
        UKRDCDb).patientrecords :=
  ⟨rfl, (C6_cascade_delete_atomicity.2.1 db3x7 "000000001"
    { patientrecords := [], laborders := [], resultitems := [] } rfl).2.2⟩

/-- C8: the pid of a resultitem is a derived passthrough over the order
relationship: whenever the item resolves to an order row it returns exactly
that order pid; it depends only on the laborder table and the order_id link,
so two items with the same order_id always derive the same pid; and pid is not
among the column-mapped attributes of ResultItem, whose only stored link is
the order_id column. -/
theorem C8_result_item_pid_derived :
    (∀ (laborders : List LabOrderRow) (r : ResultItemRow) (o : LabOrderRow),
       result_item_order laborders r = some o →
       result_item_pid laborders r = o.pid ∧ o ∈ laborders ∧ r.order_id = some o.id) ∧
    (∀ (laborders : List LabOrderRow) (r r2 : ResultItemRow),
       r.order_id = r2.order_id →
       result_item_pid laborders r = result_item_pid laborders r2) ∧
    ("pid" ∉ resultitem_columns ∧ "order_id" ∈ resultitem_columns) := by
  refine ⟨?_, ?_, by decide, by decide⟩
  · intro laborders r o hfind
    refine ⟨by rw [result_item_pid, hfind]; rfl, List.mem_of_find?_eq_some hfind, ?_⟩
    have := List.find?_some hfind
    rwa [beq_iff_eq] at this
  · intro laborders r r2 h
    rw [result_item_pid, result_item_pid, result_item_order, result_item_order, h]

/-- C8 witness: the first conjunct applied inside the concrete 3-order
aggregate. -/
theorem C8_result_item_pid_derived_witness :
    result_item_order db3x7.laborders { id := "RI1", order_id := some "LO1" } =
      some { id := "LO1", pid := some "000000001" } ∧
    result_item_pid db3x7.laborders { id := "RI1", order_id := some "LO1" } =
      some "000000001" :=
  ⟨rfl, (C8_result_item_pid_derived.1 db3x7.laborders
    { id := "RI1", order_id := some "LO1" }
    { id := "LO1", pid := some "000000001" } rfl).1⟩

/-- C10: the name property returns the first entry of the names collection
whose nameuse is L; it returns none, without raising, when the collection is
absent, empty, or holds no L name; and every returned name has nameuse L, so a
name with any other use is never returned. -/
theorem C10_patient_name_property :
    (patient_name none = none ∧ patient_name (some []) = none) ∧
    (∀ ns : List NameRow, (∀ n ∈ ns, n.nameuse ≠ some "L") →
       patient_name (some ns) = none) ∧
    (∀ (pre : List NameRow) (n : NameRow) (post : List NameRow),
       (∀ m ∈ pre, m.nameuse ≠ some "L") → n.nameuse = some "L" →
       patient_name (some (pre ++ n :: post)) = some n) ∧
    (∀ (names : Option (List NameRow)) (n : NameRow),
       patient_name names = some n → n.nameuse = some "L") := by
  refine ⟨⟨rfl, rfl⟩, ?_, ?_, ?_⟩
  · intro ns h
    rw [patient_name, Option.getD_some, List.find?_eq_none]
    intro n hn
    simpa using h n hn
  · intro pre n post hpre hn
    rw [patient_name, Option.getD_some]
    induction pre with
    | nil => simp [List.find?_cons, hn]
    | cons m rest ih =>
      rw [List.cons_append, List.find?_cons]
      have hm : (m.nameuse == some "L") = false := by
        simpa using hpre m (List.mem_cons_self m rest)
      rw [hm]
      exact ih fun x hx => hpre x (List.mem_cons_of_mem m hx)
  · intro names n h
    have := List.find?_some h
    rwa [beq_iff_eq] at this

/-- C10 witness: the first-match conjunct applied to a two-element collection
whose first entry is not the L name. -/
theorem C10_patient_name_property_witness :
    patient_name (some [{ id := "N1", nameuse := some "MAIDEN" },
      { id := "N2", nameuse := some "L" }]) =
      some { id := "N2", nameuse := some "L" } :=
  C10_patient_name_property.2.2.1 [{ id := "N1", nameuse := some "MAIDEN" }]
    { id := "N2", nameuse := some "L" } [] (by decide) rfl

/-- C2: for every synonym (a, c) declared on Patient or on Treatment, a write
through the alias followed by a read of the canonical name yields the written
value, a write through the canonical name followed by a read of the alias
yields the written value, and at any state an alias read equals the canonical
read: both names address the same stored cell. -/
theorem C2_alias_transparency (tbl : List (String × String))
    (htbl : tbl = patient_synonyms ∨ tbl = treatment_synonyms)
    (a c : String) (hm : (a, c) ∈ tbl) (α : Type) (e : Store α) (v : α) :
    getAttr tbl (setAttr tbl e a v) c = some v ∧
    getAttr tbl (setAttr tbl e c v) a = some v ∧
    getAttr tbl e a = getAttr tbl e c := by
  have hok : synTableOK tbl = true := by
    rcases htbl with h | h <;> rw [h] <;> decide
  obtain ⟨ha, hc⟩ := synTableOK_spec hok hm
  refine ⟨?_, ?_, ?_⟩
  · simp [getAttr, setAttr, ha, hc, Store.read_write_self]
  · simp [getAttr, setAttr, ha, hc, Store.read_write_self]
  · simp [getAttr, ha, hc]

/-- C2 witness: instantiated at the birth_time alias of Patient on an empty
store. -/
theorem C2_alias_transparency_witness :
    ("birth_time", "birthtime") ∈ patient_synonyms ∧
    (getAttr patient_synonyms (setAttr patient_synonyms ([] : Store Nat) "birth_time" 7)
        "birthtime" = some 7 ∧
      getAttr patient_synonyms (setAttr patient_synonyms ([] : Store Nat) "birthtime" 7)
        "birth_time" = some 7 ∧
      getAttr patient_synonyms ([] : Store Nat) "birth_time" =
        getAttr patient_synonyms ([] : Store Nat) "birthtime") := by
  refine ⟨by decide, C2_alias_transparency patient_synonyms (Or.inl rfl)
    "birth_time" "birthtime" (by decide) Nat [] 7⟩

/-- C7: the alias layer of the current schema contains a declaration whose
canonical target does not exist on the entity, and it is not rejected: the
Patient synonym person_to_contact_number_comments names the target
persontocontact_numbercomments, which is not a mapped column of Patient (the
column is persontocontact_contactnumbercomments); it is the single such broken
declaration on Patient, while every Treatment synonym target exists. -/
theorem C7_broken_alias_declaration :
    invalidAliasDeclarations patient_synonyms patient_columns =
      [("person_to_contact_number_comments", "persontocontact_numbercomments")] ∧
    invalidAliasDeclarations treatment_synonyms treatment_columns = [] := by
  constructor <;> rfl

/-- The assert loop over one entity passes when the entity has no gaps and
aborts with the first gap otherwise. -/
theorem checkKeys_eq_head_gap (entity : String) (keys currentAttrs : List String) :
    checkKeys entity keys currentAttrs =
      match entityGaps entity keys currentAttrs with
      | [] => .ok ()
      | g :: _ => .error g := by
  induction keys with
  | nil => rfl
  | cons k rest ih =>
    by_cases h : currentAttrs.contains (resolveRename k)
    · rw [checkKeys, if_pos h, ih]
      have : entityGaps entity (k :: rest) currentAttrs =
          entityGaps entity rest currentAttrs := by
        rw [entityGaps, List.filterMap_cons, if_pos h]
        rfl
      rw [this]
    · rw [checkKeys, if_neg h]
      have : entityGaps entity (k :: rest) currentAttrs =
          (entity, resolveRename k) :: entityGaps entity rest currentAttrs := by
        rw [entityGaps, List.filterMap_cons, if_neg h]
        rfl
      rw [this]

/-- The test run passes when the pair set has no gaps and aborts with the
first gap in iteration order otherwise. -/
theorem runCompatTest_eq_head_gap (pairs : List (String × List String × List String)) :
    runCompatTest pairs =
      match verifierGaps pairs with
      | [] => .ok ()
      | g :: _ => .error g := by
  induction pairs with
  | nil => rfl
  | cons p rest ih =>
    obtain ⟨n, v1k, v2k⟩ := p
    have hv : verifierGaps ((n, v1k, v2k) :: rest) =
        entityGaps n v1k v2k ++ verifierGaps rest := rfl
    rw [runCompatTest, checkKeys_eq_head_gap, hv]
    cases hg : entityGaps n v1k v2k with
    | nil => rw [List.nil_append]; exact ih
    | cons g gs => rfl

/-- C5 counterexample: on a pair set with two missing attributes the test run
reports only the first (entity, attribute) failure and stops, so its output is
not the fully enumerated failure list. -/
theorem C5_counterexample_first_failure_only :
    verifierGaps twoGapInput = [("EntityA", "x"), ("EntityB", "y")] ∧
    reportedFailures twoGapInput = [("EntityA", "x")] ∧
    reportedFailures twoGapInput ≠ verifierGaps twoGapInput :=
  ⟨rfl, rfl, by decide⟩

/-- C5 amended: the verifier short-circuits: a run passes exactly when there
is no gap, and otherwise aborts at the first failing assert, reporting exactly
the first missing (entity, attribute) pair in iteration order rather than the
full list. -/
theorem C5_verifier_short_circuits (pairs : List (String × List String × List String)) :
    runCompatTest pairs =
      match verifierGaps pairs with
      | [] => .ok ()
      | g :: _ => .error g :=
  runCompatTest_eq_head_gap pairs

/-- C1: the verifier does not report zero gaps over the current schema:
walking all 41 entity pairs of the compatibility map finds exactly one
unresolvable legacy attribute — feild_name of RRDataDefinition, which the
rename table maps to field_name, a name the current class does not expose —
and the test run aborts on it; every other legacy attribute of every pair
resolves on the current class. -/
theorem C1_verifier_finds_one_gap :
    verifierGaps comp = [("RRDataDefinition", "field_name")] ∧
    runCompatTest comp = .error ("RRDataDefinition", "field_name") :=
  ⟨rfl, rfl⟩

/-- C4: the current RRDataDefinition entity exposes the historically
misspelled attribute name feild_name but does not expose its corrected
counterpart field_name at all, even though the rename table of the
compatibility test maps feild_name to field_name. -/
theorem C4_field_name_not_exposed :
    "feild_name" ∈ currentAttrsOf "RRDataDefinition" ∧
    "field_name" ∉ currentAttrsOf "RRDataDefinition" ∧
    resolveRename "feild_name" = "field_name" := by
  refine ⟨by decide, by decide, rfl⟩

end UkrdcSqla
